import Mathlib

/-!
Shallow embedding of the shipments backend (src/server.js): a glue service
connecting a CRM (HubSpot) object store to a carrier (Royal Mail) shipment
and label API.  Pure computations (tracking-to-property mapping, mock
tracking-number synthesis, mock label text) are translated directly; the
request handlers are translated as pure functions from the request input,
the CRM data they fetch, and an oracle for remote-call results, to the HTTP
response together with the ordered list of outbound side effects they
perform.
-/

set_option autoImplicit false
set_option maxRecDepth 8000

namespace Shipments

/-- JavaScript string disjunction `a || b`: the empty string is falsy. -/
def jsOr (a b : String) : String :=
  if a = "" then b else a

/-- Truthiness of an optional string property, as JavaScript sees it. -/
def jsTruthyOpt (o : Option String) : Bool :=
  match o with
  | some s => s ≠ ""
  | none => false

/-- The ASCII digit character for a value below ten. -/
def digitChar (d : Nat) : Char :=
  Char.ofNat (48 + d)

/-- Fuel-driven decimal rendering: with enough fuel this produces the
decimal digit characters of `n`, most significant first. -/
def natDecimalDigitsAux : Nat → Nat → List Char
  | 0, _ => []
  | fuel + 1, n =>
    if n < 10 then [digitChar n]
    else natDecimalDigitsAux fuel (n / 10) ++ [digitChar (n % 10)]

/-- Decimal digit characters of a natural number, most significant first;
embeds the JavaScript `Number.prototype.toString` rendering used for the
mock tracking number (`n + 1` units of fuel always suffice). -/
def natDecimalDigits (n : Nat) : List Char :=
  natDecimalDigitsAux (n + 1) n

/-- Decimal string of a natural number. -/
def decimalString (n : Nat) : String :=
  String.mk (natDecimalDigits n)

/-- Replace the first occurrence of `pat` in a character list by `rep`;
embeds the JavaScript `String.prototype.replace` search (which, unlike
Lean `String.replace`, substitutes only the first match). -/
def replaceFirstAux (pat rep : List Char) : List Char → List Char
  | [] => []
  | c :: rest =>
    if pat.isPrefixOf (c :: rest) then rep ++ (c :: rest).drop pat.length
    else c :: replaceFirstAux pat rep rest

/-- JavaScript `s.replace(pat, rep)` for string arguments: first
occurrence only. -/
def jsReplaceFirst (s pat rep : String) : String :=
  String.mk (replaceFirstAux pat.data rep.data s.data)

/-- JavaScript `String.prototype.padStart len c`: pad on the left up to the
requested length, leaving longer strings unchanged. -/
def padStart (s : String) (len : Nat) (c : Char) : String :=
  String.mk (List.replicate (len - s.length) c ++ s.data)

/-- Value of a big-endian list of decimal digit characters. -/
def decodeDigits (l : List Char) : Nat :=
  l.foldl (fun a c => 10 * a + (c.toNat - 48)) 0

theorem digitChar_toNat : ∀ d : Nat, d < 10 → (digitChar d).toNat = 48 + d := by
  decide

theorem digitChar_isDigit : ∀ d : Nat, d < 10 → (digitChar d).isDigit = true := by
  decide

theorem decodeDigits_append_singleton (l : List Char) (c : Char) :
    decodeDigits (l ++ [c]) = 10 * decodeDigits l + (c.toNat - 48) := by
  simp [decodeDigits, List.foldl_append]

theorem decodeDigits_replicate_zero_append (m : Nat) (l : List Char) :
    decodeDigits (List.replicate m '0' ++ l) = decodeDigits l := by
  induction m with
  | zero => simp
  | succ k ih =>
    have : (List.replicate (k + 1) '0' : List Char) = '0' :: List.replicate k '0' := by
      simp [List.replicate_succ]
    simp only [this, List.cons_append, decodeDigits, List.foldl_cons] at *
    have h0 : (10 * 0 + ('0'.toNat - 48)) = 0 := by decide
    rw [h0] at *
    exact ih

theorem natDecimalDigitsAux_decode :
    ∀ fuel n : Nat, n < 10 ^ fuel → decodeDigits (natDecimalDigitsAux fuel n) = n := by
  intro fuel
  induction fuel with
  | zero =>
    intro n hn
    have : n = 0 := by simpa using hn
    subst this
    rfl
  | succ fuel ih =>
    intro n hn
    by_cases h : n < 10
    · simp only [natDecimalDigitsAux, if_pos h]
      simp [decodeDigits]
      have := digitChar_toNat n h
      omega
    · simp only [natDecimalDigitsAux, if_neg h]
      rw [decodeDigits_append_singleton]
      have hdiv : n / 10 < 10 ^ fuel := by
        have hp : 10 ^ (fuel + 1) = 10 ^ fuel * 10 := pow_succ 10 fuel
        omega
      rw [ih (n / 10) hdiv]
      have hm : (digitChar (n % 10)).toNat = 48 + n % 10 :=
        digitChar_toNat _ (Nat.mod_lt _ (by omega))
      omega

theorem natDecimalDigitsAux_length_pos :
    ∀ fuel n : Nat, 1 ≤ fuel → 0 < (natDecimalDigitsAux fuel n).length := by
  intro fuel n hf
  match fuel, hf with
  | fuel + 1, _ =>
    by_cases h : n < 10
    · simp [natDecimalDigitsAux, if_pos h]
    · simp [natDecimalDigitsAux, if_neg h]

theorem natDecimalDigitsAux_length_le :
    ∀ fuel k n : Nat, n < 10 ^ fuel → n < 10 ^ k → 1 ≤ k →
      (natDecimalDigitsAux fuel n).length ≤ k := by
  intro fuel
  induction fuel with
  | zero => intro k n _ _ _; simp [natDecimalDigitsAux]
  | succ fuel ih =>
    intro k n hf hk hk1
    by_cases h : n < 10
    · simp [natDecimalDigitsAux, if_pos h]; omega
    · simp only [natDecimalDigitsAux, if_neg h, List.length_append, List.length_cons,
        List.length_nil]
      have hk2 : 2 ≤ k := by
        by_contra hlt
        have : k = 1 := by omega
        subst this
        simp at hk
        omega
      have hdivf : n / 10 < 10 ^ fuel := by
        have hp : 10 ^ (fuel + 1) = 10 ^ fuel * 10 := pow_succ 10 fuel
        omega
      have hdivk : n / 10 < 10 ^ (k - 1) := by
        have hp : 10 ^ k = 10 ^ (k - 1) * 10 := by
          have := pow_succ 10 (k - 1)
          have hke : k - 1 + 1 = k := by omega
          rw [hke] at this
          exact this
        omega
      have := ih (k - 1) (n / 10) hdivf hdivk (by omega)
      omega

theorem natDecimalDigitsAux_all_digits :
    ∀ fuel n : Nat, ∀ c ∈ natDecimalDigitsAux fuel n, c.isDigit = true := by
  intro fuel
  induction fuel with
  | zero => intro n c hc; simp [natDecimalDigitsAux] at hc
  | succ fuel ih =>
    intro n c hc
    by_cases h : n < 10
    · simp [natDecimalDigitsAux, if_pos h] at hc
      subst hc
      exact digitChar_isDigit n h
    · simp only [natDecimalDigitsAux, if_neg h] at hc
      rcases List.mem_append.mp hc with h1 | h2
      · exact ih (n / 10) c h1
      · simp at h2
        subst h2
        exact digitChar_isDigit _ (Nat.mod_lt _ (by omega))

theorem lt_ten_pow_succ_self (n : Nat) : n < 10 ^ (n + 1) :=
  lt_of_lt_of_le (Nat.lt_pow_self (by norm_num) n)
    (Nat.pow_le_pow_right (by norm_num) (Nat.le_succ n))

theorem decodeDigits_natDecimalDigits (n : Nat) :
    decodeDigits (natDecimalDigits n) = n :=
  natDecimalDigitsAux_decode (n + 1) n (lt_ten_pow_succ_self n)

theorem natDecimalDigits_length_pos (n : Nat) :
    0 < (natDecimalDigits n).length :=
  natDecimalDigitsAux_length_pos (n + 1) n (by omega)

theorem natDecimalDigits_length_le (k n : Nat) (hk : n < 10 ^ k) (hk1 : 1 ≤ k) :
    (natDecimalDigits n).length ≤ k :=
  natDecimalDigitsAux_length_le (n + 1) k n (lt_ten_pow_succ_self n) hk hk1

theorem natDecimalDigits_all_digits (n : Nat) :
    ∀ c ∈ natDecimalDigits n, c.isDigit = true :=
  natDecimalDigitsAux_all_digits (n + 1) n

/-! ### Carrier client, MOCK_MODE branch (rmCreateShipment, rmGetLabelPDF) -/

/-- Result of `rmCreateShipment`: carrier shipment number and tracking
number (the single-use carrier token is internal to the client and not
modelled). -/
structure RMCreateResult where
  shipmentNumber : String
  trackingNumber : String
  deriving DecidableEq, Repr

/-- The mock tracking number `RM` + `Math.floor(Math.random() * 1e10)`
rendered in decimal and left-padded with zeros to ten characters; `r` is
the drawn value `Math.floor(Math.random() * 1e10)`. -/
def mockTrackingNumber (r : Nat) : String :=
  "RM" ++ padStart (decimalString r) 10 '0'

/-- The `MOCK_MODE` branch of `rmCreateShipment`: shipment number
`MOCK-` + `Date.now()` and a pseudo-random tracking number; `now` is the
millisecond clock reading and `r` the random draw. -/
def rmCreateShipmentMock (now r : Nat) : RMCreateResult :=
  { shipmentNumber := "MOCK-" ++ decimalString now
    trackingNumber := mockTrackingNumber r }

/-- Text lines drawn into the placeholder PDF by `makeMockLabelPDF`
(the PDF container format itself is not modelled, only the rendered
text). -/
def makeMockLabelPDFText (trackingNumber recipientName recipientPostcode : String) : List String :=
  ["ROYAL MAIL — MOCK LABEL",
   "Tracking: " ++ trackingNumber,
   "Recipient: " ++ jsOr recipientName "N/A",
   "Postcode: " ++ jsOr recipientPostcode "N/A",
   "This is a mock label generated for testing without Royal Mail credentials."]

/-- The `MOCK_MODE` branch of `rmGetLabelPDF`: the tracking string shown on
the placeholder label is the shipment number with the `MOCK-` marker
replaced by `RM`, falling back to `RM0000000000` when that yields the
empty string. -/
def rmGetLabelPDFMockText (shipmentNumber recipientName recipientPostcode : String) : List String :=
  makeMockLabelPDFText (jsOr (jsReplaceFirst shipmentNumber "MOCK-" "RM") "RM0000000000")
    recipientName recipientPostcode

/-! ### Tracking data and mapTrackingToProperties -/

/-- Last tracking event as returned by the carrier tracking lookup. -/
structure TrackingEvent where
  code : String
  description : String
  location : String
  time : String
  deriving DecidableEq, Repr

/-- Carrier tracking lookup result (`rmGetTracking` returns this or
nothing). -/
structure Tracking where
  status : String
  lastEvent : Option TrackingEvent
  eta : String
  deriving DecidableEq, Repr

/-- CRM property update assembled by `mapTrackingToProperties`; a `none`
field means the key is absent from the update object. -/
structure TrackingUpdate where
  shipment_status : Option String
  last_event_code : Option String
  last_event_description : Option String
  last_event_location : Option String
  last_event_time : Option String
  expected_delivery_date : Option String
  delivered_datetime : Option String
  deriving DecidableEq, Repr

/-- Translation of `mapTrackingToProperties` (src/server.js lines 172-184):
status, last-event fields and eta are copied when truthy / present, and
`delivered_datetime` is set exactly when the status is `Delivered` and the
last event carries a truthy time. -/
def mapTrackingToProperties (t : Tracking) : TrackingUpdate :=
  { shipment_status := if t.status ≠ "" then some t.status else none
    last_event_code := t.lastEvent.map TrackingEvent.code
    last_event_description := t.lastEvent.map TrackingEvent.description
    last_event_location := t.lastEvent.map TrackingEvent.location
    last_event_time := t.lastEvent.map TrackingEvent.time
    expected_delivery_date := if t.eta ≠ "" then some t.eta else none
    delivered_datetime :=
      match t.lastEvent with
      | some e => if t.status = "Delivered" ∧ e.time ≠ "" then some e.time else none
      | none => none }

/-- Number of keys of the update object (`Object.keys(update).length`). -/
def updateKeysCount (u : TrackingUpdate) : Nat :=
  [u.shipment_status, u.last_event_code, u.last_event_description,
   u.last_event_location, u.last_event_time, u.expected_delivery_date,
   u.delivered_datetime].countP Option.isSome

/-! ### Configuration, CRM records and remote-call oracle -/

/-- Process configuration read from the environment at startup (the fields
the handlers read). -/
structure Config where
  hubspotToken : String
  portalId : String
  inboundSecret : String
  senderName : String
  senderLine1 : String
  senderCity : String
  senderPostcode : String
  senderCountry : String
  deriving DecidableEq, Repr

/-- Properties of a Shipment (Listings) record as fetched by
`/labels/create`; the empty string stands for an absent (falsy) property. -/
structure ListingProps where
  shipment_id : String
  order_number : String
  shipment_status : String
  sender_name : String
  sender_line1 : String
  sender_city : String
  sender_postcode : String
  sender_country_code : String
  recipient_name : String
  recipient_line1 : String
  recipient_city : String
  recipient_postcode : String
  recipient_country_code : String
  rmg_shipment_number : String
  tracking_number : String
  label_url : String
  deriving DecidableEq, Repr

/-- Properties of a Contact record as fetched by
`/labels/create-from-contact`; the empty string stands for an absent
property. -/
structure ContactProps where
  firstname : String
  lastname : String
  address : String
  city : String
  zip : String
  country : String
  abc_create_label_now : String
  abc_label_created : String
  abc_tracking_number : String
  abc_shipment_status : String
  deriving DecidableEq, Repr

/-- Address block of a party in the carrier-creation payload. -/
structure RMAddress where
  addressLine1 : String
  postcode : String
  countryCode : String
  deriving DecidableEq, Repr

/-- A party (sender or recipient) in the carrier-creation payload. -/
structure RMParty where
  name : String
  address : RMAddress
  deriving DecidableEq, Repr

/-- Argument object passed to `rmCreateShipment` by the handlers. -/
structure RMCreateArgs where
  serviceCode : String
  sender : RMParty
  recipient : RMParty
  reference : String
  deriving DecidableEq, Repr

/-- Shipment properties written by the `createListing` step of
`/labels/create-from-contact`. -/
structure NewShipmentProps where
  shipment_id : String
  order_number : String
  sender_name : String
  sender_line1 : String
  sender_city : String
  sender_postcode : String
  sender_country_code : String
  recipient_name : String
  recipient_line1 : String
  recipient_city : String
  recipient_postcode : String
  recipient_country_code : String
  shipment_status : String
  deriving DecidableEq, Repr

/-- Shipment-record patch written after a successful label creation. -/
structure ListingPatch where
  rmg_shipment_number : String
  tracking_number : String
  tracking_url : String
  label_url : String
  shipment_status : String
  deriving DecidableEq, Repr

/-- Results of the remote calls a handler may make, supplied as an oracle:
`now` is the `Date.now()` reading, `nowISO` the ISO clock string,
`newListingId` the id the CRM assigns to a created record, `rmResult` the
carrier-creation response and `uploadUrl` the URL of the uploaded file. -/
structure Oracle where
  now : Nat
  nowISO : String
  newListingId : String
  rmResult : RMCreateArgs → RMCreateResult
  uploadUrl : String

/-! ### Outbound side effects and HTTP responses -/

/-- One outbound call made by a handler, in commit order. -/
inductive Effect where
  | getListing (id : String)
  | getContact (id : String)
  | patchContact (id : String) (props : List (String × String))
  | createListing (props : NewShipmentProps)
  | createAssociation (listingId contactId : String)
  | rmCreate (args : RMCreateArgs)
  | rmGetLabel (shipmentNumber : String)
  | uploadFile (filename : String)
  | patchListingLabel (id : String) (patch : ListingPatch)
  | patchListingTracking (id : String) (update : TrackingUpdate)
  | getAssociations (listingId : String)
  | searchListings
  deriving DecidableEq, Repr

/-- Response body sent by a handler. -/
inductive RespBody where
  | text (s : String)
  | html (s : String)
  | jsonErr (error : String)
  | jsonAlready (message trackingNumber labelUrl : String)
  | jsonCreated (trackingNumber labelUrl : String)
  | jsonCreatedContact (listingId trackingNumber labelUrl : String)
  | jsonSync (scanned updated : Nat)
  deriving DecidableEq, Repr

/-- An HTTP response: status code and body. -/
structure Resp where
  status : Nat
  body : RespBody
  deriving DecidableEq, Repr

/-- Whether an effect is a carrier shipment-creation call. -/
def isRmCreate : Effect → Bool
  | Effect.rmCreate _ => true
  | _ => false

/-- Whether an effect is a tracking-driven shipment-record patch. -/
def isPatchListingTracking : Effect → Bool
  | Effect.patchListingTracking _ _ => true
  | _ => false

/-- HubSpot record URL for a Shipment (Listings) record. -/
def recordUrlFor (portalId listingId : String) : String :=
  "https://app.hubspot.com/contacts/" ++ portalId ++ "/record/LISTINGS/" ++ listingId

/-- HubSpot record URL for a Contact record. -/
def contactUrlFor (portalId contactId : String) : String :=
  "https://app.hubspot.com/contacts/" ++ portalId ++ "/record/0-1/" ++ contactId

/-- Royal Mail public tracking URL for a tracking number. -/
def trackingUrlFor (trackingNumber : String) : String :=
  "https://www.royalmail.com/track-your-item#/tracking-results/" ++ trackingNumber

/-- HTML snippet sent when `/labels/create` short-circuits. -/
def alreadyHtmlFor (recordUrl : String) : String :=
  "<p>Shipment already created. <a href=\"" ++ recordUrl ++
    "\" target=\"_self\">Back to Shipment</a></p><script>window.location=\"" ++
    recordUrl ++ "\"</script>"

/-- HTML snippet sent when `/labels/create` finishes creating a label. -/
def createdHtmlFor (recordUrl : String) : String :=
  "<p>Label created. <a href=\"" ++ recordUrl ++
    "\" target=\"_self\">Return to Shipment</a></p><script>window.location=\"" ++
    recordUrl ++ "\"</script>"

/-- HTML snippet sent when `/labels/create-from-contact` finishes. -/
def createdContactHtmlFor (contactUrl : String) : String :=
  "<p>Label created. <a href=\"" ++ contactUrl ++
    "\" target=\"_self\">Back to Contact</a></p><script>window.location=\"" ++
    contactUrl ++ "\"</script>"

/-! ### Handler: /labels/create -/

/-- Translation of the `/labels/create` handler (src/server.js lines
314-391): `requireEnv`, the `listingId` presence check, the
`rmg_shipment_number` idempotency short-circuit, sender assembly with
field-wise fallback to the configured defaults, recipient assembly with a
`GB` country default only, carrier creation, label fetch, file upload and
the final shipment patch.  `p` is the property set fetched for the record
and `o` supplies the remote-call results. -/
def labelsCreate (cfg : Config) (listingId : String) (p : ListingProps) (o : Oracle) :
    Resp × List Effect :=
  if cfg.hubspotToken = "" then
    ({ status := 500, body := RespBody.jsonErr "HUBSPOT_TOKEN is required" }, [])
  else if listingId = "" then
    ({ status := 400, body := RespBody.jsonErr "missing listingId" }, [])
  else if p.rmg_shipment_number ≠ "" then
    let recordUrl := if cfg.portalId = "" then "" else recordUrlFor cfg.portalId listingId
    let body :=
      if recordUrl = "" then
        RespBody.jsonAlready "already created" p.tracking_number p.label_url
      else RespBody.html (alreadyHtmlFor recordUrl)
    ({ status := 200, body := body }, [Effect.getListing listingId])
  else
    let sender : RMParty :=
      { name := jsOr p.sender_name cfg.senderName
        address :=
          { addressLine1 := jsOr p.sender_line1 cfg.senderLine1
            postcode := jsOr p.sender_postcode cfg.senderPostcode
            countryCode := jsOr p.sender_country_code cfg.senderCountry } }
    let recipient : RMParty :=
      { name := p.recipient_name
        address :=
          { addressLine1 := p.recipient_line1
            postcode := p.recipient_postcode
            countryCode := jsOr p.recipient_country_code "GB" } }
    let args : RMCreateArgs :=
      { serviceCode := "TR48"
        sender := sender
        recipient := recipient
        reference := jsOr p.order_number (jsOr p.shipment_id listingId) }
    let created := o.rmResult args
    let filename := jsOr p.order_number (jsOr p.shipment_id created.shipmentNumber) ++ ".pdf"
    let labelUrl := o.uploadUrl
    let patch : ListingPatch :=
      { rmg_shipment_number := created.shipmentNumber
        tracking_number := created.trackingNumber
        tracking_url := trackingUrlFor created.trackingNumber
        label_url := labelUrl
        shipment_status := "Label Printed" }
    let effs : List Effect :=
      [Effect.getListing listingId, Effect.rmCreate args,
       Effect.rmGetLabel created.shipmentNumber, Effect.uploadFile filename,
       Effect.patchListingLabel listingId patch]
    let recordUrl := if cfg.portalId = "" then "" else recordUrlFor cfg.portalId listingId
    let body :=
      if recordUrl = "" then RespBody.jsonCreated created.trackingNumber labelUrl
      else RespBody.html (createdHtmlFor recordUrl)
    ({ status := 200, body := body }, effs)

/-! ### Handler: /labels/create-from-contact -/

/-- Translation of the `/labels/create-from-contact` handler
(src/server.js lines 196-308): `requireEnv`, the `contactId` presence
check, recipient assembly from the contact, the address-line/postcode
validation, the trigger-property flip, shipment-record creation,
association creation, carrier creation, label fetch, file upload, and the
final shipment and contact patches.  `cp` is the fetched contact property
set and `o` supplies the remote-call results. -/
def labelsCreateFromContact (cfg : Config) (contactId : String) (cp : ContactProps)
    (o : Oracle) : Resp × List Effect :=
  if cfg.hubspotToken = "" then
    ({ status := 500, body := RespBody.jsonErr "HUBSPOT_TOKEN is required" }, [])
  else if contactId = "" then
    ({ status := 400, body := RespBody.jsonErr "missing contactId" }, [])
  else
    let recipientName := jsOr ((cp.firstname ++ " " ++ cp.lastname).trim) "Recipient"
    let recipientLine1 := cp.address
    let recipientCity := cp.city
    let recipientPostcode := cp.zip
    let recipientCountry := (jsOr cp.country "GB").toUpper
    if recipientLine1 = "" ∨ recipientPostcode = "" then
      ({ status := 400, body := RespBody.text "Contact is missing address line1 or postcode." },
       [Effect.getContact contactId])
    else
      let shipmentProps : NewShipmentProps :=
        { shipment_id := "CT-" ++ contactId ++ "-" ++ decimalString o.now
          order_number := "CT-" ++ contactId
          sender_name := cfg.senderName
          sender_line1 := cfg.senderLine1
          sender_city := cfg.senderCity
          sender_postcode := cfg.senderPostcode
          sender_country_code := cfg.senderCountry
          recipient_name := recipientName
          recipient_line1 := recipientLine1
          recipient_city := recipientCity
          recipient_postcode := recipientPostcode
          recipient_country_code := recipientCountry
          shipment_status := "Created" }
      let listingId := o.newListingId
      let args : RMCreateArgs :=
        { serviceCode := "TR48"
          sender :=
            { name := cfg.senderName
              address :=
                { addressLine1 := cfg.senderLine1
                  postcode := cfg.senderPostcode
                  countryCode := cfg.senderCountry } }
          recipient :=
            { name := recipientName
              address :=
                { addressLine1 := recipientLine1
                  postcode := recipientPostcode
                  countryCode := recipientCountry } }
          reference := "CT-" ++ contactId }
      let created := o.rmResult args
      let labelUrl := o.uploadUrl
      let patch : ListingPatch :=
        { rmg_shipment_number := created.shipmentNumber
          tracking_number := created.trackingNumber
          tracking_url := trackingUrlFor created.trackingNumber
          label_url := labelUrl
          shipment_status := "Label Printed" }
      let effs : List Effect :=
        [Effect.getContact contactId,
         Effect.patchContact contactId [("abc_create_label_now", "true")],
         Effect.createListing shipmentProps,
         Effect.createAssociation listingId contactId,
         Effect.rmCreate args,
         Effect.rmGetLabel created.shipmentNumber,
         Effect.uploadFile ("CT-" ++ contactId ++ ".pdf"),
         Effect.patchListingLabel listingId patch,
         Effect.patchContact contactId
           [("abc_label_created", "true"),
            ("abc_label_created_at", o.nowISO),
            ("abc_tracking_number", created.trackingNumber),
            ("abc_shipment_status", "Label Printed")]]
      let contactUrl := if cfg.portalId = "" then "" else contactUrlFor cfg.portalId contactId
      let body :=
        if contactUrl = "" then
          RespBody.jsonCreatedContact listingId created.trackingNumber labelUrl
        else RespBody.html (createdContactHtmlFor contactUrl)
      ({ status := 200, body := body }, effs)

/-! ### Handler: /tracking/sync (with checkSecret) -/

/-- A shipment record returned by the CRM search inside `/tracking/sync`. -/
structure SyncRecord where
  id : String
  tracking_number : String
  deriving DecidableEq, Repr

/-- Translation of the `checkSecret` middleware (src/server.js lines
42-47): passes when no inbound secret is configured or when the
`x-inbound-secret` header equals it. -/
def checkSecret (secret : String) (header : Option String) : Bool :=
  if secret = "" then true
  else
    match header with
    | some got => got == secret
    | none => false

/-- One iteration of the `/tracking/sync` loop body for record `r`:
records without a tracking number, records whose tracking lookup returns
nothing, and records whose mapped update is empty are skipped; otherwise
the shipment is patched, associations are read and the status is mirrored
onto each associated contact, and the record counts as updated.  Returns
the effects of the iteration and its contribution to `updated`. -/
def syncRecordStep (lookup : String → Option Tracking) (assoc : String → List String)
    (r : SyncRecord) : List Effect × Nat :=
  if r.tracking_number = "" then ([], 0)
  else
    match lookup r.tracking_number with
    | none => ([], 0)
    | some t =>
      let update := mapTrackingToProperties t
      if updateKeysCount update = 0 then ([], 0)
      else
        let contactIds := assoc r.id
        let contactUpdate : List (String × String) :=
          if jsTruthyOpt update.shipment_status then
            [("abc_shipment_status", update.shipment_status.getD "")]
          else []
        let contactEffs : List Effect :=
          if contactIds.length ≠ 0 then
            if contactUpdate.length ≠ 0 then
              contactIds.map (fun cid => Effect.patchContact cid contactUpdate)
            else []
          else []
        (Effect.patchListingTracking r.id update :: Effect.getAssociations r.id :: contactEffs,
         1)

/-- Sequential `for` loop of `/tracking/sync` over the search results,
accumulating effects in order and the `updated` counter. -/
def syncLoop (lookup : String → Option Tracking) (assoc : String → List String) :
    List SyncRecord → List Effect × Nat
  | [] => ([], 0)
  | r :: rest =>
    let step := syncRecordStep lookup assoc r
    let rest' := syncLoop lookup assoc rest
    (step.1 ++ rest'.1, step.2 + rest'.2)

/-- Translation of the `/tracking/sync` handler body (src/server.js lines
399-446) after the secret check: the CRM search, the reconciliation loop
and the `{ok:true, scanned, updated}` response. -/
def trackingSync (lookup : String → Option Tracking) (assoc : String → List String)
    (results : List SyncRecord) : Resp × List Effect :=
  let st := syncLoop lookup assoc results
  ({ status := 200, body := RespBody.jsonSync results.length st.2 },
   Effect.searchListings :: st.1)

/-- The `/tracking/sync` route: `checkSecret` gate, then `requireEnv`,
then the sync body. -/
def trackingSyncRoute (cfg : Config) (header : Option String)
    (lookup : String → Option Tracking) (assoc : String → List String)
    (results : List SyncRecord) : Resp × List Effect :=
  if checkSecret cfg.inboundSecret header then
    if cfg.hubspotToken = "" then
      ({ status := 500, body := RespBody.jsonErr "HUBSPOT_TOKEN is required" }, [])
    else trackingSync lookup assoc results
  else
    ({ status := 401, body := RespBody.jsonErr "unauthorized" }, [])

/-! ### Helper lemmas -/

theorem append_left_ne_empty (a b : String) (ha : a.data ≠ []) : a ++ b ≠ "" := by
  intro h
  have hd : a.data ++ b.data = ([] : List Char) := by
    have := congrArg String.data h
    rwa [String.data_append] at this
  exact ha (List.append_eq_nil.mp hd).1

theorem recordUrlFor_ne_empty (p l : String) : recordUrlFor p l ≠ "" := by
  apply append_left_ne_empty
  rw [String.data_append, String.data_append]
  intro hx
  have h1 := (List.append_eq_nil.mp hx).1
  have h2 := (List.append_eq_nil.mp h1).1
  exact (by decide : ("https://app.hubspot.com/contacts/" : String).data ≠ []) h2

theorem contactUrlFor_ne_empty (p c : String) : contactUrlFor p c ≠ "" := by
  apply append_left_ne_empty
  rw [String.data_append, String.data_append]
  intro hx
  have h1 := (List.append_eq_nil.mp hx).1
  have h2 := (List.append_eq_nil.mp h1).1
  exact (by decide : ("https://app.hubspot.com/contacts/" : String).data ≠ []) h2

theorem mockTrackingNumber_shape (r : Nat) (h : r < 10 ^ 10) :
    ∃ s : String, mockTrackingNumber r = "RM" ++ s ∧ s.length = 10 ∧
      s.data.all Char.isDigit = true := by
  refine ⟨padStart (decimalString r) 10 '0', rfl, ?_, ?_⟩
  · have hle : (natDecimalDigits r).length ≤ 10 :=
      natDecimalDigits_length_le 10 r h (by norm_num)
    simp only [padStart, decimalString, String.length_mk, List.length_append,
      List.length_replicate]
    omega
  · simp only [padStart, decimalString, List.all_append, Bool.and_eq_true, List.all_eq_true]
    constructor
    · intro c hc
      have : c = '0' := (List.eq_of_mem_replicate hc)
      subst this
      decide
    · exact natDecimalDigits_all_digits r

theorem mockTrackingNumber_inj (r1 r2 : Nat)
    (h : mockTrackingNumber r1 = mockTrackingNumber r2) : r1 = r2 := by
  have hd : ("RM" : String).data ++
      (List.replicate (10 - (decimalString r1).length) '0' ++ (decimalString r1).data) =
      ("RM" : String).data ++
      (List.replicate (10 - (decimalString r2).length) '0' ++ (decimalString r2).data) := by
    have := congrArg String.data h
    simpa only [mockTrackingNumber, padStart, String.data_append] using this
  have hd2 := List.append_cancel_left hd
  have hdec := congrArg decodeDigits hd2
  rw [decodeDigits_replicate_zero_append, decodeDigits_replicate_zero_append] at hdec
  have e1 : decodeDigits (decimalString r1).data = r1 := decodeDigits_natDecimalDigits r1
  have e2 : decodeDigits (decimalString r2).data = r2 := decodeDigits_natDecimalDigits r2
  rw [e1, e2] at hdec
  exact hdec

theorem filter_patchContact_map (ids : List String) (cu : List (String × String)) :
    (ids.map (fun cid => Effect.patchContact cid cu)).filter isPatchListingTracking = [] := by
  induction ids with
  | nil => rfl
  | cons i rest ih => simp [List.filter_cons, isPatchListingTracking, ih]

theorem syncRecordStep_patch_count (lookup : String → Option Tracking)
    (assoc : String → List String) (r : SyncRecord) :
    ((syncRecordStep lookup assoc r).1.filter isPatchListingTracking).length
      = (syncRecordStep lookup assoc r).2 := by
  unfold syncRecordStep
  by_cases ht : r.tracking_number = ""
  · simp [ht]
  · simp only [if_neg ht]
    cases hl : lookup r.tracking_number with
    | none => simp
    | some t =>
      by_cases hu : updateKeysCount (mapTrackingToProperties t) = 0
      · simp [hu]
      · simp only [if_neg hu, List.filter_cons]
        simp only [isPatchListingTracking]
        split_ifs <;> simp_all [filter_patchContact_map]

theorem syncLoop_updated_eq (lookup : String → Option Tracking)
    (assoc : String → List String) (results : List SyncRecord) :
    (syncLoop lookup assoc results).2
      = ((syncLoop lookup assoc results).1.filter isPatchListingTracking).length := by
  induction results with
  | nil => rfl
  | cons r rest ih =>
    simp only [syncLoop, List.filter_append, List.length_append]
    rw [syncRecordStep_patch_count, ih]

/-! ### Concrete sample data used by witnesses and counterexamples -/

/-- Sample configuration with a portal id configured (the default). -/
def cfgHtml : Config :=
  { hubspotToken := "hs-token", portalId := "47987553", inboundSecret := ""
    senderName := "Your Company", senderLine1 := "1 Example Way", senderCity := "London"
    senderPostcode := "W1A 1AA", senderCountry := "GB" }

/-- Sample configuration with no portal id, so handlers answer in JSON. -/
def cfgJson : Config :=
  { hubspotToken := "hs-token", portalId := "", inboundSecret := ""
    senderName := "Your Company", senderLine1 := "1 Example Way", senderCity := "London"
    senderPostcode := "W1A 1AA", senderCountry := "GB" }

/-- Sample configuration with an inbound secret configured. -/
def cfgSecret : Config :=
  { hubspotToken := "hs-token", portalId := "47987553", inboundSecret := "swordfish"
    senderName := "Your Company", senderLine1 := "1 Example Way", senderCity := "London"
    senderPostcode := "W1A 1AA", senderCountry := "GB" }

/-- Sample oracle for remote-call results. -/
def oracle0 : Oracle :=
  { now := 7, nowISO := "2024-01-01T00:00:00.000Z", newListingId := "901"
    rmResult := fun _ => rmCreateShipmentMock 7 7
    uploadUrl := "https://files.example/label.pdf" }

/-- A shipment record that already went through label creation. -/
def pAlready : ListingProps :=
  { shipment_id := "S-1", order_number := "ORD-1", shipment_status := "Label Printed"
    sender_name := "", sender_line1 := "", sender_city := "", sender_postcode := ""
    sender_country_code := "", recipient_name := "Bob Jones"
    recipient_line1 := "5 High Street", recipient_city := "Leeds"
    recipient_postcode := "LS1 1AA", recipient_country_code := "GB"
    rmg_shipment_number := "SHIP-1", tracking_number := "RM0000000001"
    label_url := "https://files.example/old.pdf" }

/-- A fresh shipment record: no carrier shipment yet, sender fields unset. -/
def pFresh : ListingProps :=
  { shipment_id := "S-2", order_number := "ORD-2", shipment_status := "Created"
    sender_name := "", sender_line1 := "", sender_city := "", sender_postcode := ""
    sender_country_code := "", recipient_name := "Bob Jones"
    recipient_line1 := "5 High Street", recipient_city := "Leeds"
    recipient_postcode := "LS1 1AA", recipient_country_code := ""
    rmg_shipment_number := "", tracking_number := "", label_url := "" }

/-- A fresh shipment record with every recipient field missing. -/
def pBare : ListingProps :=
  { shipment_id := "S-3", order_number := "", shipment_status := "Created"
    sender_name := "", sender_line1 := "", sender_city := "", sender_postcode := ""
    sender_country_code := "", recipient_name := "", recipient_line1 := ""
    recipient_city := "", recipient_postcode := "", recipient_country_code := ""
    rmg_shipment_number := "", tracking_number := "", label_url := "" }

/-- A contact with a complete address. -/
def cpValid : ContactProps :=
  { firstname := "Ada", lastname := "Lovelace", address := "2 Contact Road"
    city := "London", zip := "N1 9GU", country := "gb", abc_create_label_now := ""
    abc_label_created := "", abc_tracking_number := "", abc_shipment_status := "" }

/-- A contact with no address line. -/
def cpNoAddr : ContactProps :=
  { firstname := "Ada", lastname := "Lovelace", address := "", city := "London"
    zip := "N1 9GU", country := "gb", abc_create_label_now := ""
    abc_label_created := "", abc_tracking_number := "", abc_shipment_status := "" }

/-- The same contact after a first successful invocation of
`/labels/create-from-contact` mirrored its results back: the trigger flag,
label-created flag, tracking number and status are all set. -/
def cpRepeat : ContactProps :=
  { firstname := "Ada", lastname := "Lovelace", address := "2 Contact Road"
    city := "London", zip := "N1 9GU", country := "gb", abc_create_label_now := "true"
    abc_label_created := "true", abc_tracking_number := "RM0000000007"
    abc_shipment_status := "Label Printed" }

/-- Sample tracking state returned by the lookup for `RM0000000042`. -/
def trk0 : Tracking :=
  { status := "In Transit"
    lastEvent := some { code := "EVT", description := "On the way"
                        location := "Hub", time := "2024-01-02T00:00:00Z" }
    eta := "2024-01-05" }

/-- Sample tracking lookup: data only for `RM0000000042`. -/
def lookup0 (tn : String) : Option Tracking :=
  if tn = "RM0000000042" then some trk0 else none

/-- Sample association lookup: every shipment links to contact `c9`. -/
def assoc0 (_ : String) : List String := ["c9"]

/-- Sample CRM search results: one record without a tracking number, one
with. -/
def recs0 : List SyncRecord :=
  [{ id := "1", tracking_number := "" }, { id := "2", tracking_number := "RM0000000042" }]

/-! ### Claim theorems -/

/-- C1: for every `/labels/create` request whose shipment record already
has a carrier shipment number set, the handler performs no carrier, label,
upload or patch step (its only outbound call is the record fetch) and
returns a 200 success whose JSON form reports the existing tracking number
and label URL unchanged (the HTML form redirects back to the unchanged
record). -/
theorem labels_create_short_circuits_when_already_created
    (cfg : Config) (listingId : String) (p : ListingProps) (o : Oracle)
    (ht : cfg.hubspotToken ≠ "") (hl : listingId ≠ "")
    (hr : p.rmg_shipment_number ≠ "") :
    labelsCreate cfg listingId p o =
      ({ status := 200
         body :=
           if cfg.portalId = "" then
             RespBody.jsonAlready "already created" p.tracking_number p.label_url
           else RespBody.html (alreadyHtmlFor (recordUrlFor cfg.portalId listingId)) },
       [Effect.getListing listingId]) := by
  by_cases hp : cfg.portalId = ""
  · simp [labelsCreate, ht, hl, hr, hp]
  · simp [labelsCreate, ht, hl, hr, hp, recordUrlFor_ne_empty]

/-- Witness for C1 at a concrete already-created record. -/
theorem labels_create_short_circuits_when_already_created_witness :
    labelsCreate cfgHtml "L1" pAlready oracle0 =
      ({ status := 200
         body :=
           if cfgHtml.portalId = "" then
             RespBody.jsonAlready "already created" pAlready.tracking_number pAlready.label_url
           else RespBody.html (alreadyHtmlFor (recordUrlFor cfgHtml.portalId "L1")) },
       [Effect.getListing "L1"]) :=
  labels_create_short_circuits_when_already_created cfgHtml "L1" pAlready oracle0
    (by decide) (by decide) (by decide)

/-- C2 (amended): label creation is idempotent only in the
shipment-record entry mode: once `rmg_shipment_number` is set,
`/labels/create` makes no carrier-creation call, but
`/labels/create-from-contact` performs no idempotency check and makes a
carrier-creation call on every invocation with a valid address, even for a
contact whose shipment was already fulfilled. -/
theorem label_creation_idempotency_only_for_listing_mode
    (cfg : Config) (listingId : String) (p : ListingProps) (o : Oracle)
    (contactId : String) (cp : ContactProps) (o2 : Oracle)
    (ht : cfg.hubspotToken ≠ "") (hl : listingId ≠ "")
    (hr : p.rmg_shipment_number ≠ "") (hc : contactId ≠ "")
    (ha : cp.address ≠ "") (hz : cp.zip ≠ "") :
    (labelsCreate cfg listingId p o).2.filter isRmCreate = [] ∧
    (labelsCreateFromContact cfg contactId cp o2).2.filter isRmCreate ≠ [] := by
  constructor
  · by_cases hp : cfg.portalId = ""
    · simp [labelsCreate, ht, hl, hr, hp, List.filter_cons, isRmCreate]
    · simp [labelsCreate, ht, hl, hr, hp, recordUrlFor_ne_empty, List.filter_cons, isRmCreate]
  · by_cases hp : cfg.portalId = ""
    · simp [labelsCreateFromContact, ht, hc, ha, hz, hp, List.filter_cons, isRmCreate]
    · simp [labelsCreateFromContact, ht, hc, ha, hz, hp, contactUrlFor_ne_empty,
        List.filter_cons, isRmCreate]

/-- Counterexample to C2 as stated: a contact whose previous invocation
already recorded a carrier shipment (trigger flag, label-created flag,
tracking number and status all mirrored back) is run through
`/labels/create-from-contact` again, and the handler still performs a
carrier shipment-creation call. -/
theorem labels_create_from_contact_repeats_carrier_creation :
    (labelsCreateFromContact cfgHtml "c1" cpRepeat oracle0).2.filter isRmCreate ≠ [] := by
  decide

/-- Witness for the amended C2 at concrete inputs. -/
theorem label_creation_idempotency_only_for_listing_mode_witness :
    (labelsCreate cfgHtml "L1" pAlready oracle0).2.filter isRmCreate = [] ∧
    (labelsCreateFromContact cfgHtml "c2" cpValid oracle0).2.filter isRmCreate ≠ [] :=
  label_creation_idempotency_only_for_listing_mode cfgHtml "L1" pAlready oracle0
    "c2" cpValid oracle0 (by decide) (by decide) (by decide) (by decide) (by decide)
    (by decide)

/-- C3: for every `/labels/create-from-contact` request whose contact
lacks an address line or a postal code, the handler returns the 400
validation failure and its only outbound call is the contact fetch: no
trigger-property flip, no shipment-record creation, no association
creation and no carrier call. -/
theorem create_from_contact_missing_address_returns_400
    (cfg : Config) (contactId : String) (cp : ContactProps) (o : Oracle)
    (ht : cfg.hubspotToken ≠ "") (hc : contactId ≠ "")
    (hm : cp.address = "" ∨ cp.zip = "") :
    labelsCreateFromContact cfg contactId cp o =
      ({ status := 400
         body := RespBody.text "Contact is missing address line1 or postcode." },
       [Effect.getContact contactId]) := by
  rcases hm with h | h <;> simp [labelsCreateFromContact, ht, hc, h]

/-- Witness for C3 at a concrete contact with no address line. -/
theorem create_from_contact_missing_address_returns_400_witness :
    labelsCreateFromContact cfgHtml "c1" cpNoAddr oracle0 =
      ({ status := 400
         body := RespBody.text "Contact is missing address line1 or postcode." },
       [Effect.getContact "c1"]) :=
  create_from_contact_missing_address_returns_400 cfgHtml "c1" cpNoAddr oracle0
    (by decide) (by decide) (Or.inl (by decide))

/-- C4: `mapTrackingToProperties` includes a `delivered_datetime` equal to
the last-event time exactly when the status is the literal `Delivered` and
a (truthy) last-event time is present; in particular the update for status
`Delivered` with last-event time `2024-01-01T00:00:00Z` carries that
timestamp, and the same input with status `In Transit` carries none. -/
theorem map_tracking_delivered_datetime_iff
    (t : Tracking) (c d l e1 e2 : String) :
    (∀ ts : String,
      (mapTrackingToProperties t).delivered_datetime = some ts ↔
        (t.status = "Delivered" ∧ ∃ e, t.lastEvent = some e ∧ e.time = ts ∧ ts ≠ "")) ∧
    (mapTrackingToProperties
        { status := "Delivered"
          lastEvent := some { code := c, description := d, location := l
                              time := "2024-01-01T00:00:00Z" }
          eta := e1 }).delivered_datetime = some "2024-01-01T00:00:00Z" ∧
    (mapTrackingToProperties
        { status := "In Transit"
          lastEvent := some { code := c, description := d, location := l
                              time := "2024-01-01T00:00:00Z" }
          eta := e2 }).delivered_datetime = none := by
  refine ⟨?_, by simp [mapTrackingToProperties], by simp [mapTrackingToProperties]⟩
  intro ts
  cases he : t.lastEvent with
  | none => simp [mapTrackingToProperties, he]
  | some e =>
    simp only [mapTrackingToProperties, he]
    by_cases hd : t.status = "Delivered" ∧ e.time ≠ ""
    · rw [if_pos hd]
      constructor
      · intro hts
        have hts' : e.time = ts := Option.some.inj hts
        exact ⟨hd.1, e, rfl, hts', hts' ▸ hd.2⟩
      · rintro ⟨_, e', he', htime, _⟩
        have : e' = e := Option.some.inj he'.symm
        subst this
        rw [htime]
    · rw [if_neg hd]
      constructor
      · intro hts; cases hts
      · rintro ⟨h1, e', he', htime, hne⟩
        have : e' = e := Option.some.inj he'.symm
        subst this
        exact absurd ⟨h1, htime ▸ hne⟩ hd

/-- Witness for C4 at a concrete tracking state. -/
theorem map_tracking_delivered_datetime_iff_witness :
    ((mapTrackingToProperties trk0).delivered_datetime = some "2024-01-02T00:00:00Z" ↔
      (trk0.status = "Delivered" ∧
        ∃ e, trk0.lastEvent = some e ∧ e.time = "2024-01-02T00:00:00Z" ∧
          "2024-01-02T00:00:00Z" ≠ "")) ∧
    (mapTrackingToProperties
        { status := "Delivered"
          lastEvent := some { code := "EVT", description := "Done", location := "Hub"
                              time := "2024-01-01T00:00:00Z" }
          eta := "" }).delivered_datetime = some "2024-01-01T00:00:00Z" :=
  ⟨(map_tracking_delivered_datetime_iff trk0 "EVT" "Done" "Hub" "" "").1
      "2024-01-02T00:00:00Z",
   (map_tracking_delivered_datetime_iff trk0 "EVT" "Done" "Hub" "" "").2.1⟩

/-- C5: every `/tracking/sync` run answers `{ok:true, scanned, updated}`
with `scanned` the number of records returned by the CRM search and
`updated` the number of shipment-record patches actually performed, and
any record without a tracking number, or whose tracking lookup returns no
data, is skipped: its loop iteration performs no outbound call and adds
nothing to `updated` (the model is total, so skipping never raises an
error). -/
theorem tracking_sync_counts_and_skips
    (lookup : String → Option Tracking) (assoc : String → List String)
    (results : List SyncRecord) :
    (trackingSync lookup assoc results).1 =
      { status := 200
        body := RespBody.jsonSync results.length (syncLoop lookup assoc results).2 } ∧
    (syncLoop lookup assoc results).2 =
      ((trackingSync lookup assoc results).2.filter isPatchListingTracking).length ∧
    (∀ r : SyncRecord, r.tracking_number = "" → syncRecordStep lookup assoc r = ([], 0)) ∧
    (∀ r : SyncRecord, lookup r.tracking_number = none →
      syncRecordStep lookup assoc r = ([], 0)) := by
  refine ⟨rfl, ?_, ?_, ?_⟩
  · simp only [trackingSync, List.filter_cons]
    have hs : isPatchListingTracking Effect.searchListings = false := rfl
    rw [hs]
    rw [if_neg Bool.false_ne_true]
    exact syncLoop_updated_eq lookup assoc results
  · intro r h
    simp [syncRecordStep, h]
  · intro r h
    by_cases ht : r.tracking_number = ""
    · simp [syncRecordStep, ht]
    · simp [syncRecordStep, ht, h]

/-- Witness for C5 at a concrete search result list with one skipped and
one updated record. -/
theorem tracking_sync_counts_and_skips_witness :
    (trackingSync lookup0 assoc0 recs0).1 =
      { status := 200
        body := RespBody.jsonSync recs0.length (syncLoop lookup0 assoc0 recs0).2 } ∧
    syncRecordStep lookup0 assoc0 { id := "1", tracking_number := "" } = ([], 0) :=
  ⟨(tracking_sync_counts_and_skips lookup0 assoc0 recs0).1,
   (tracking_sync_counts_and_skips lookup0 assoc0 recs0).2.2.1
     { id := "1", tracking_number := "" } rfl⟩

/-- C6: when an inbound secret is configured, every `/tracking/sync`
request whose `x-inbound-secret` header is missing or differs from the
secret is answered 401 `unauthorized` with no outbound call at all (in
particular no CRM search); when no secret is configured, the check passes
for every header. -/
theorem tracking_sync_secret_gate
    (cfg : Config) (header : Option String) (lookup : String → Option Tracking)
    (assoc : String → List String) (results : List SyncRecord) :
    (cfg.inboundSecret ≠ "" → header ≠ some cfg.inboundSecret →
      trackingSyncRoute cfg header lookup assoc results =
        ({ status := 401, body := RespBody.jsonErr "unauthorized" }, [])) ∧
    (cfg.inboundSecret = "" → checkSecret cfg.inboundSecret header = true) := by
  constructor
  · intro hs hh
    have hck : checkSecret cfg.inboundSecret header = false := by
      unfold checkSecret
      rw [if_neg hs]
      cases header with
      | none => rfl
      | some got =>
        have hne : got ≠ cfg.inboundSecret := fun he => hh (by rw [he])
        simp [hne]
    simp [trackingSyncRoute, hck]
  · intro hs
    simp [checkSecret, hs]

/-- Witness for C6: a missing header is rejected when the secret is
configured, and an arbitrary header passes when it is not. -/
theorem tracking_sync_secret_gate_witness :
    trackingSyncRoute cfgSecret none lookup0 assoc0 recs0 =
      ({ status := 401, body := RespBody.jsonErr "unauthorized" }, []) ∧
    checkSecret cfgJson.inboundSecret (some "anything") = true :=
  ⟨(tracking_sync_secret_gate cfgSecret none lookup0 assoc0 recs0).1
      (by decide) (by decide),
   (tracking_sync_secret_gate cfgJson (some "anything") lookup0 assoc0 recs0).2 rfl⟩

/-- C7 (amended): in simulation mode every synthesized tracking number is
`RM` followed by exactly ten decimal digits, and two label-creation calls
yield distinct tracking numbers whenever their underlying random draws
`Math.floor(Math.random() * 1e10)` differ; equality of the draws (which
`Math.random` does not preclude) yields equal tracking numbers. -/
theorem mock_tracking_numbers_format_and_distinct_draws
    (now1 now2 r1 r2 : Nat) (h1 : r1 < 10 ^ 10) (h2 : r2 < 10 ^ 10) (hne : r1 ≠ r2) :
    (rmCreateShipmentMock now1 r1).trackingNumber ≠
      (rmCreateShipmentMock now2 r2).trackingNumber ∧
    (∃ s : String, (rmCreateShipmentMock now1 r1).trackingNumber = "RM" ++ s ∧
      s.length = 10 ∧ s.data.all Char.isDigit = true) ∧
    (∃ s : String, (rmCreateShipmentMock now2 r2).trackingNumber = "RM" ++ s ∧
      s.length = 10 ∧ s.data.all Char.isDigit = true) := by
  refine ⟨?_, mockTrackingNumber_shape r1 h1, mockTrackingNumber_shape r2 h2⟩
  intro he
  exact hne (mockTrackingNumber_inj r1 r2 he)

/-- Counterexample to C7 as stated: two sequential mock label-creation
calls at different times (hence different carrier shipments, as for two
different contacts) whose random draws coincide produce the same tracking
number. -/
theorem mock_tracking_numbers_can_collide :
    (rmCreateShipmentMock 1000 5).trackingNumber =
      (rmCreateShipmentMock 2000 5).trackingNumber ∧
    (rmCreateShipmentMock 1000 5).shipmentNumber ≠
      (rmCreateShipmentMock 2000 5).shipmentNumber := by
  decide

/-- Witness for the amended C7 at concrete draws 0 and 1. -/
theorem mock_tracking_numbers_format_and_distinct_draws_witness :
    (rmCreateShipmentMock 1 0).trackingNumber ≠ (rmCreateShipmentMock 2 1).trackingNumber ∧
    (∃ s : String, (rmCreateShipmentMock 1 0).trackingNumber = "RM" ++ s ∧
      s.length = 10 ∧ s.data.all Char.isDigit = true) ∧
    (∃ s : String, (rmCreateShipmentMock 2 1).trackingNumber = "RM" ++ s ∧
      s.length = 10 ∧ s.data.all Char.isDigit = true) :=
  mock_tracking_numbers_format_and_distinct_draws 1 2 0 1 (by norm_num) (by norm_num)
    (by norm_num)

/-- C8: for every `/labels/create` request on a record with no carrier
shipment number, the carrier-creation payload exists in the effect trace
and its sender falls back field-wise to the configured defaults: each
unset sender field carries the configured default, each set one carries
the record value. -/
theorem labels_create_sender_defaults_fieldwise
    (cfg : Config) (listingId : String) (p : ListingProps) (o : Oracle)
    (ht : cfg.hubspotToken ≠ "") (hl : listingId ≠ "")
    (hr : p.rmg_shipment_number = "") :
    ∃ a : RMCreateArgs,
      (labelsCreate cfg listingId p o).2.filter isRmCreate = [Effect.rmCreate a] ∧
      (p.sender_name = "" → a.sender.name = cfg.senderName) ∧
      (p.sender_name ≠ "" → a.sender.name = p.sender_name) ∧
      (p.sender_line1 = "" → a.sender.address.addressLine1 = cfg.senderLine1) ∧
      (p.sender_line1 ≠ "" → a.sender.address.addressLine1 = p.sender_line1) ∧
      (p.sender_postcode = "" → a.sender.address.postcode = cfg.senderPostcode) ∧
      (p.sender_postcode ≠ "" → a.sender.address.postcode = p.sender_postcode) ∧
      (p.sender_country_code = "" → a.sender.address.countryCode = cfg.senderCountry) ∧
      (p.sender_country_code ≠ "" → a.sender.address.countryCode = p.sender_country_code) := by
  refine ⟨{ serviceCode := "TR48"
            sender :=
              { name := jsOr p.sender_name cfg.senderName
                address :=
                  { addressLine1 := jsOr p.sender_line1 cfg.senderLine1
                    postcode := jsOr p.sender_postcode cfg.senderPostcode
                    countryCode := jsOr p.sender_country_code cfg.senderCountry } }
            recipient :=
              { name := p.recipient_name
                address :=
                  { addressLine1 := p.recipient_line1
                    postcode := p.recipient_postcode
                    countryCode := jsOr p.recipient_country_code "GB" } }
            reference := jsOr p.order_number (jsOr p.shipment_id listingId) },
    ?_, ?_, ?_, ?_, ?_, ?_, ?_, ?_, ?_⟩
  · simp [labelsCreate, ht, hl, hr, List.filter_cons, isRmCreate]
  all_goals intro h
  all_goals simp [jsOr, h]

/-- Witness for C8 at a record with all sender fields unset. -/
theorem labels_create_sender_defaults_fieldwise_witness :
    ∃ a : RMCreateArgs,
      (labelsCreate cfgHtml "L2" pFresh oracle0).2.filter isRmCreate = [Effect.rmCreate a] ∧
      a.sender.name = cfgHtml.senderName ∧
      a.sender.address.addressLine1 = cfgHtml.senderLine1 ∧
      a.sender.address.postcode = cfgHtml.senderPostcode ∧
      a.sender.address.countryCode = cfgHtml.senderCountry := by
  obtain ⟨a, hfil, hn, _, hl1, _, hpc, _, hcc, _⟩ :=
    labels_create_sender_defaults_fieldwise cfgHtml "L2" pFresh oracle0
      (by decide) (by decide) (by decide)
  exact ⟨a, hfil, hn (by decide), hl1 (by decide), hpc (by decide), hcc (by decide)⟩

/-- C9 (amended): in simulation mode the placeholder PDF always contains
the recipient postal code, and its tracking line carries the string
obtained from the shipment number by replacing the `MOCK-` marker with
`RM` (with fallback `RM0000000000`), which is derived from the clock
reading and need not equal the tracking number returned by the preceding
shipment-creation call. -/
theorem mock_label_contains_postcode_and_derived_tracking
    (now r : Nat) (name pc : String) (hpc : pc ≠ "") :
    ("Postcode: " ++ pc) ∈
      rmGetLabelPDFMockText (rmCreateShipmentMock now r).shipmentNumber name pc ∧
    ("Tracking: " ++
        jsOr (jsReplaceFirst (rmCreateShipmentMock now r).shipmentNumber "MOCK-" "RM")
          "RM0000000000") ∈
      rmGetLabelPDFMockText (rmCreateShipmentMock now r).shipmentNumber name pc := by
  constructor
  · simp [rmGetLabelPDFMockText, makeMockLabelPDFText, jsOr, hpc]
  · simp [rmGetLabelPDFMockText, makeMockLabelPDFText]

/-- Counterexample to C9 as stated: at clock reading 7 and random draw 7
the shipment-creation call returns tracking number `RM0000000007`, but no
line of the placeholder PDF rendered for that shipment contains it (the
label shows `RM7`, derived from the shipment number instead). -/
theorem mock_label_omits_returned_tracking_number :
    (rmCreateShipmentMock 7 7).trackingNumber = "RM0000000007" ∧
    ∀ l ∈ rmGetLabelPDFMockText (rmCreateShipmentMock 7 7).shipmentNumber
        "Ada Lovelace" "N1 9GU",
      ¬ ((rmCreateShipmentMock 7 7).trackingNumber.data <:+: l.data) := by
  decide

/-- Witness for the amended C9 at a concrete mock run. -/
theorem mock_label_contains_postcode_and_derived_tracking_witness :
    ("Postcode: " ++ "N1 9GU") ∈
      rmGetLabelPDFMockText (rmCreateShipmentMock 7 7).shipmentNumber "Ada" "N1 9GU" ∧
    ("Tracking: " ++
        jsOr (jsReplaceFirst (rmCreateShipmentMock 7 7).shipmentNumber "MOCK-" "RM")
          "RM0000000000") ∈
      rmGetLabelPDFMockText (rmCreateShipmentMock 7 7).shipmentNumber "Ada" "N1 9GU" :=
  mock_label_contains_postcode_and_derived_tracking 7 7 "Ada" "N1 9GU" (by decide)

/-- C10: `/labels/create` validates no recipient field: on any record
without a carrier shipment number the handler answers 200 and the carrier
payload carries the recipient name, address line and postcode exactly as
stored (possibly empty), with only the country code defaulting to `GB`;
this entry mode never answers a 400 validation error for missing
recipient data. -/
theorem labels_create_no_recipient_validation
    (cfg : Config) (listingId : String) (p : ListingProps) (o : Oracle)
    (ht : cfg.hubspotToken ≠ "") (hl : listingId ≠ "")
    (hr : p.rmg_shipment_number = "") :
    (labelsCreate cfg listingId p o).1.status = 200 ∧
    ∃ a : RMCreateArgs,
      (labelsCreate cfg listingId p o).2.filter isRmCreate = [Effect.rmCreate a] ∧
      a.recipient.name = p.recipient_name ∧
      a.recipient.address.addressLine1 = p.recipient_line1 ∧
      a.recipient.address.postcode = p.recipient_postcode ∧
      a.recipient.address.countryCode = jsOr p.recipient_country_code "GB" := by
  constructor
  · simp [labelsCreate, ht, hl, hr]
  · refine ⟨{ serviceCode := "TR48"
              sender :=
                { name := jsOr p.sender_name cfg.senderName
                  address :=
                    { addressLine1 := jsOr p.sender_line1 cfg.senderLine1
                      postcode := jsOr p.sender_postcode cfg.senderPostcode
                      countryCode := jsOr p.sender_country_code cfg.senderCountry } }
              recipient :=
                { name := p.recipient_name
                  address :=
                    { addressLine1 := p.recipient_line1
                      postcode := p.recipient_postcode
                      countryCode := jsOr p.recipient_country_code "GB" } }
              reference := jsOr p.order_number (jsOr p.shipment_id listingId) },
      ?_, rfl, rfl, rfl, rfl⟩
    simp [labelsCreate, ht, hl, hr, List.filter_cons, isRmCreate]

/-- Witness for C10 at a record with every recipient field missing. -/
theorem labels_create_no_recipient_validation_witness :
    (labelsCreate cfgHtml "L3" pBare oracle0).1.status = 200 ∧
    ∃ a : RMCreateArgs,
      (labelsCreate cfgHtml "L3" pBare oracle0).2.filter isRmCreate = [Effect.rmCreate a] ∧
      a.recipient.name = "" ∧
      a.recipient.address.addressLine1 = "" ∧
      a.recipient.address.postcode = "" ∧
      a.recipient.address.countryCode = jsOr pBare.recipient_country_code "GB" := by
  obtain ⟨hst, a, hfil, h1, h2, h3, h4⟩ :=
    labels_create_no_recipient_validation cfgHtml "L3" pBare oracle0
      (by decide) (by decide) (by decide)
  exact ⟨hst, a, hfil, h1, h2, h3, h4⟩

end Shipments
